import Mathlib

/-!
Verification of the progress-tracking core (`progress.py`) of the
autonomous-coding-agent repository.

The Python module is shallowly embedded as pure Lean functions:

* JSON values (`json.loads` results) become the inductive `JVal`
  (numbers are modelled as integers; none of the verified properties
  depend on non-integer JSON numbers).
* A file on disk becomes `File`: absent, present-but-unparsable, or
  present with a parsed JSON value.  Reading raw text and parsing are
  collapsed into this abstraction; writing `json.dumps v` yields
  `File.json v`.
* Environment configuration (the three `os.environ` lookups) becomes
  `Env`; Python truthiness of the optional strings is modelled by
  `truthyOpt`.
* Exceptions that can escape a function are modelled with
  `Except PyErr`; exceptions that the source catches are resolved
  inside the corresponding definition, exactly where the source
  catches them.
* Outbound HTTP requests are modelled by the value the source would
  serialize and send (`MilestoneMessage`, `WebhookPayload`); network
  transmission itself is abstracted away (the source ignores the
  response and swallows transport errors).
-/

/-- A parsed JSON value.  Numbers are modelled as integers. -/
inductive JVal where
  | jnull
  | jbool (b : Bool)
  | jnum (n : Int)
  | jstr (s : String)
  | jarr (xs : List JVal)
  | jobj (fields : List (String × JVal))

/-- Python exception classes that can propagate in the modelled code. -/
inductive PyErr where
  | typeError
  | attributeError
deriving DecidableEq

/-- A file as the modelled code observes it: missing, present but not
valid JSON (or unreadable), or present and parsing to a JSON value. -/
inductive File where
  | absent
  | malformed
  | json (v : JVal)

/-- The three environment-derived configuration values read at module
load: `PROGRESS_N8N_WEBHOOK_URL`, `TELEGRAM_BOT_TOKEN`,
`TELEGRAM_CHAT_ID`.  `none` models an unset variable. -/
structure Env where
  webhookUrl : Option String
  telegramBotToken : Option String
  telegramChatId : Option String
deriving DecidableEq

/-- Python truthiness of an optional string (`os.environ.get` result):
`None` and the empty string are falsy. -/
def truthyOpt : Option String → Bool
  | none => false
  | some s => s != ""

/-- Python truthiness of a JSON value. -/
def pyTruthy : JVal → Bool
  | .jnull => false
  | .jbool b => b
  | .jnum n => n != 0
  | .jstr s => s != ""
  | .jarr xs => !xs.isEmpty
  | .jobj fs => !fs.isEmpty

/-- Whether the value is a Python `dict` (`isinstance(x, dict)`). -/
def JVal.isObj : JVal → Bool
  | .jobj _ => true
  | _ => false

/-- Python `d.get(key, default)` on a parsed JSON object (only applied
to values already known to be objects at the call sites). -/
def jGet (v : JVal) (key : String) (dflt : JVal) : JVal :=
  match v with
  | .jobj fs =>
    match fs.lookup key with
    | some x => x
    | none => dflt
  | _ => dflt

/-- Python `len(x)`: defined for lists, strings and dicts, raises
`TypeError` on every other JSON value. -/
def pyLen : JVal → Except PyErr Int
  | .jarr xs => .ok xs.length
  | .jstr s => .ok s.length
  | .jobj fs => .ok fs.length
  | _ => .error .typeError

/-- The sequence Python iteration yields over a sized JSON value:
a list yields its elements, a string its one-character strings, a dict
its keys; non-iterables yield nothing (call sites guard with `pyLen`).
-/
def pyIterElems : JVal → List JVal
  | .jarr xs => xs
  | .jstr s => s.data.map (fun ch => .jstr (String.mk [ch]))
  | .jobj fs => fs.map (fun p => .jstr p.1)
  | _ => []

/-- Python `str(x)` as used inside f-strings; rendering of containers
is abstracted (no verified property inspects it). -/
def pyStr : JVal → String
  | .jstr s => s
  | .jnum n => toString n
  | .jbool true => "True"
  | .jbool false => "False"
  | .jnull => "None"
  | .jarr _ => "[...]"
  | .jobj _ => "\x7b...\x7d"

/-- Python floor division `a // b`. -/
def pyFloorDiv (a b : Int) : Int := Int.fdiv a b

/-- Python comparison `a > v` between an `int` and a JSON value:
defined against numbers and booleans, `TypeError` otherwise. -/
def pyGtJ (a : Int) : JVal → Except PyErr Bool
  | .jnum m => .ok (decide (m < a))
  | .jbool b => .ok (decide ((if b then (1 : Int) else 0) < a))
  | _ => .error .typeError

/-- Numeric value of a JSON number or boolean (only applied after a
successful `pyGtJ`, so the fallback case is unreachable there). -/
def pyToInt : JVal → Int
  | .jnum m => m
  | .jbool b => if b then 1 else 0
  | _ => 0

/-- Python `i == v` between an `int` and a JSON value (booleans compare
as their numeric value). -/
def pyEqInt (i : Int) : JVal → Bool
  | .jnum m => m == i
  | .jbool b => (if b then (1 : Int) else 0) == i
  | _ => false

/-- Python `i in s` for the cached passing-index set. -/
def memNum (i : Int) (s : List JVal) : Bool := s.any (pyEqInt i)

/-- Whether a JSON value is hashable in Python (lists and dicts are
not). -/
def hashableJ : JVal → Bool
  | .jarr _ => false
  | .jobj _ => false
  | _ => true

/-- Python `set(v)`: `none` models the `TypeError` raised when `v` is
not iterable or contains an unhashable element; the element list
returned for a successful call is used only for membership tests. -/
def setOfJ : JVal → Option (List JVal)
  | .jarr xs => if xs.all hashableJ then some xs else none
  | .jstr s => some (s.data.map (fun ch => .jstr (String.mk [ch])))
  | .jobj fs => some (fs.map (fun p => .jstr p.1))
  | _ => none

/-- Round-half-even of a rational to an integer (Python `round`). -/
def roundHalfEvenQ (x : ℚ) : Int :=
  let f := ⌊x⌋
  let frac := x - f
  if frac < 1 / 2 then f
  else if 1 / 2 < frac then f + 1
  else if f % 2 = 0 then f else f + 1

/-- Python `round(x, 1)` over exact rationals. -/
def pyRound1 (x : ℚ) : ℚ := (roundHalfEvenQ (x * 10) : ℚ) / 10

/-- The percentage expression `round((passing / total) * 100, 1) if
total > 0 else 0` appearing verbatim at progress.py:75 and
progress.py:148. -/
def pctOf (passing total : Int) : ℚ :=
  if 0 < total then pyRound1 ((passing : ℚ) / (total : ℚ) * 100) else 0

/-- Milestone interval constant `TELEGRAM_MILESTONE_INTERVAL = 10`. -/
def TELEGRAM_MILESTONE_INTERVAL : Int := 10

/-- The `tests` sequence `count_passing_tests` settles on
(progress.py:210-216): the parsed value itself for a bare array, the
`"features"` value for an object carrying that key, the empty list
otherwise. -/
def manifestTests : JVal → JVal
  | .jarr xs => .jarr xs
  | .jobj fs =>
    match fs.lookup "features" with
    | some v => v
    | none => .jarr []
  | _ => .jarr []

/-- The count of manifest entries that are dicts with a truthy
`passes` field: `sum(1 for test in tests if isinstance(test, dict) and
test.get("passes", False))` (progress.py:219). -/
def truthyPassingCount (xs : List JVal) : Int :=
  (xs.countP (fun t => t.isObj && pyTruthy (jGet t "passes" (.jbool false))) : Int)

/-- Embedding of `count_passing_tests` (progress.py:191-223).  A
missing or unparsable manifest returns `(0, 0)` (the source catches
`JSONDecodeError` and `IOError` only); `len(tests)` on a
non-sized `"features"` value raises `TypeError`, which the source does
not catch. -/
def count_passing_tests (f : File) : Except PyErr (Int × Int) :=
  match f with
  | .absent => .ok (0, 0)
  | .malformed => .ok (0, 0)
  | .json data =>
    match pyLen (manifestTests data) with
    | .error e => .error e
    | .ok total =>
      .ok (truthyPassingCount (pyIterElems (manifestTests data)), total)

/-- Reading the previous progress from the cache file
(progress.py:102-112).  Returns the raw `count` value (any JSON value)
and the previous passing-index set.  A missing file keeps the defaults;
the bare `except` resolves every read, parse, attribute or hashability
error to `previous = 0` with an empty set, matching the source. -/
def readCache : File → JVal × List JVal
  | .absent => (.jnum 0, [])
  | .malformed => (.jnum 0, [])
  | .json v =>
    match v with
    | .jobj fs =>
      match setOfJ (jGet (.jobj fs) "passing_indices" (.jarr [])) with
      | some s => (jGet (.jobj fs) "count" (.jnum 0), s)
      | none => (.jnum 0, [])
    | _ => (.jnum 0, [])

/-- The entry appended to `completed_tests` for a newly passing record
(progress.py:130-135): the description, prefixed with the category in
brackets when the category is truthy. -/
def mkEntry (i : Int) (t : JVal) : JVal :=
  let desc := jGet t "description" (.jstr ("Test #" ++ toString (i + 1)))
  let category := jGet t "category" (.jstr "")
  if pyTruthy category then .jstr ("[" ++ pyStr category ++ "] " ++ pyStr desc)
  else desc

/-- The loop of progress.py:125-135 over the enumerated feature list.
Returns the accumulated passing indices and newly-completed entries.
A non-dict element raises `AttributeError` at `test.get`, which the
surrounding bare `except` swallows, so the loop stops and the lists
accumulated so far are kept. -/
def loopFeatures (prevSet : List JVal) : List JVal → Int → List Int × List JVal
  | [], _ => ([], [])
  | t :: rest, i =>
    match t with
    | .jobj fields =>
      if pyTruthy (jGet (.jobj fields) "passes" (.jbool false)) then
        let tail := loopFeatures prevSet rest (i + 1)
        if memNum i prevSet then (i :: tail.1, tail.2)
        else (i :: tail.1, mkEntry i (.jobj fields) :: tail.2)
      else loopFeatures prevSet rest (i + 1)
    | _ => ([], [])

/-- Scanning `feature_list.json` inside `send_progress_webhook`
(progress.py:121-137).  This path, unlike `count_passing_tests`, never
unwraps a `"features"` object: enumerating a dict yields its keys,
whose `.get` raises `AttributeError`, swallowed by the bare `except`,
so any non-array manifest yields empty lists. -/
def scanFeatures (f : File) (prevSet : List JVal) : List Int × List JVal :=
  match f with
  | .json (.jarr xs) => loopFeatures prevSet xs 0
  | _ => ([], [])

/-- The passing indices the webhook path computes for a manifest file
(same loop in both the increase branch, progress.py:125-127, and the
first-run initialization branch, progress.py:180-182). -/
def currentPassingIndices (f : File) : List Int :=
  (scanFeatures f []).1

/-- The JSON object written to `.progress_cache`
(progress.py:167-170 and progress.py:185-188). -/
def mkCacheObj (count : Int) (idx : List Int) : JVal :=
  .jobj [("count", .jnum count), ("passing_indices", .jarr (idx.map .jnum))]

/-- The content of the milestone chat message
(progress.py:78-94), with the literal f-string template abstracted to
its interpolated fields; `recentLines` holds the truncated entries of
the "Recently completed" section in display order. -/
structure MilestoneMessage where
  projectName : String
  passing : Int
  total : Int
  percentage : ℚ
  milestone : Int
  recentLines : List String
  sentAt : String

/-- The `completed_tests[-5:]` selection of progress.py:87. -/
def recentOf (l : List JVal) : List JVal :=
  if l.length > 5 then l.drop (l.length - 5) else l

/-- Truncation of one displayed entry (progress.py:91):
`test[:60] + "..." if len(test) > 60 else test`.  On a non-string
entry, `len` raises `TypeError` for non-sized values, and the
`list + str` concatenation raises for long lists; these propagate
(the source has no handler here). -/
def truncEntry : JVal → Except PyErr String
  | .jstr s => .ok (if s.length > 60 then s.take 60 ++ "..." else s)
  | .jarr xs => if xs.length > 60 then .error .typeError else .ok (pyStr (.jarr xs))
  | .jobj fs => if fs.length > 60 then .error .typeError else .ok (pyStr (.jobj fs))
  | _ => .error .typeError

/-- Embedding of `check_telegram_milestone` (progress.py:55-96).
Returns the message attempted through the chat sink, `none` when the
sink is unconfigured or no milestone boundary was crossed, and an
error when message construction raises. -/
def check_telegram_milestone (env : Env) (passing previous total : Int)
    (name : String) (completed : List JVal) (now : String) :
    Except PyErr (Option MilestoneMessage) :=
  if truthyOpt env.telegramBotToken && truthyOpt env.telegramChatId then
    if pyFloorDiv previous TELEGRAM_MILESTONE_INTERVAL * TELEGRAM_MILESTONE_INTERVAL
        < pyFloorDiv passing TELEGRAM_MILESTONE_INTERVAL * TELEGRAM_MILESTONE_INTERVAL then
      match (recentOf completed).mapM truncEntry with
      | .error e => .error e
      | .ok lines =>
        .ok (some { projectName := name, passing := passing, total := total,
                    percentage := pctOf passing total,
                    milestone := pyFloorDiv passing TELEGRAM_MILESTONE_INTERVAL
                      * TELEGRAM_MILESTONE_INTERVAL,
                    recentLines := lines, sentAt := now })
    else .ok none
  else .ok none

/-- Embedding of `send_telegram_notification` (progress.py:22-52):
`false` when the sink is unconfigured; transport is abstracted as a
successful best-effort send otherwise. -/
def send_telegram_notification (env : Env) (message : MilestoneMessage) : Bool :=
  truthyOpt env.telegramBotToken && truthyOpt env.telegramChatId

/-- The webhook payload dictionary (progress.py:144-154). -/
structure WebhookPayload where
  event : String
  passing : Int
  total : Int
  percentage : ℚ
  previous_passing : JVal
  tests_completed_this_session : Int
  completed_tests : List JVal
  project : String
  timestamp : String

/-- The observable effects of one `send_progress_webhook` call: the
chat message attempted (if any), the body posted to the generic
webhook (if any), and the JSON value written to the cache file
(if any). -/
structure WebhookOutcome where
  telegram : Option MilestoneMessage
  webhook : Option (List WebhookPayload)
  cacheWrite : Option JVal

/-- Embedding of `send_progress_webhook` (progress.py:99-188).
`now` stands for the wall-clock reading; the webhook timestamp is
`datetime.utcnow().isoformat() + "Z"`, modelled as `now ++ "Z"`.
The comparison `passing > previous` (progress.py:115) sits outside
every handler and raises `TypeError` when the cached `count` is
neither a number nor a boolean. -/
def send_progress_webhook (env : Env) (passing total : Int) (name : String)
    (f c : File) (now : String) : Except PyErr WebhookOutcome :=
  match pyGtJ passing (readCache c).1 with
  | .error e => .error e
  | .ok true =>
    match check_telegram_milestone env passing (pyToInt (readCache c).1) total name
        (scanFeatures f (readCache c).2).2 now with
    | .error e => .error e
    | .ok tmsg =>
      .ok { telegram := tmsg,
            webhook :=
              if truthyOpt env.webhookUrl then
                some [{ event := "test_progress", passing := passing, total := total,
                        percentage := pctOf passing total,
                        previous_passing := (readCache c).1,
                        tests_completed_this_session :=
                          passing - pyToInt (readCache c).1,
                        completed_tests := (scanFeatures f (readCache c).2).2,
                        project := name, timestamp := now ++ "Z" }]
              else none,
            cacheWrite := some (mkCacheObj passing (scanFeatures f (readCache c).2).1) }
  | .ok false =>
    match c with
    | .absent =>
      .ok { telegram := none, webhook := none,
            cacheWrite := some (mkCacheObj passing (currentPassingIndices f)) }
    | _ => .ok { telegram := none, webhook := none, cacheWrite := none }

/-- What `print_progress_summary` prints and does
(progress.py:236-245): either the progress line together with the
effects of `send_progress_webhook`, or the placeholder line. -/
inductive SummaryOutput where
  | progress (passing total : Int) (outcome : WebhookOutcome)
  | placeholder

/-- Embedding of `print_progress_summary` (progress.py:236-245). -/
def print_progress_summary (env : Env) (name : String) (f c : File)
    (now : String) : Except PyErr SummaryOutput :=
  match count_passing_tests f with
  | .error e => .error e
  | .ok (passing, total) =>
    if 0 < total then
      match send_progress_webhook env passing total name f c now with
      | .error e => .error e
      | .ok out => .ok (.progress passing total out)
    else .ok .placeholder

/-- The cache file state after one call: `write_text` of the dumped
object when a write happened, the untouched file otherwise. -/
def applyCacheWrite (out : WebhookOutcome) (c : File) : File :=
  match out.cacheWrite with
  | some v => .json v
  | none => c

/-- One full progress cycle: `print_progress_summary` together with
the resulting cache file state (the cache is untouched when the call
raises, since both raise points precede the write). -/
def runCycle (env : Env) (name : String) (f c : File) (now : String) :
    Except PyErr SummaryOutput × File :=
  match print_progress_summary env name f c now with
  | .error e => (.error e, c)
  | .ok .placeholder => (.ok .placeholder, c)
  | .ok (.progress p t out) => (.ok (.progress p t out), applyCacheWrite out c)

/-- A run with no outward effect: nothing sent to either sink and no
cache write (an erroring run also sends and writes nothing, since both
raise points in the source precede every send and the write). -/
def noEffectsB : Except PyErr SummaryOutput → Bool
  | .error _ => true
  | .ok .placeholder => true
  | .ok (.progress _ _ out) =>
    out.telegram.isNone && out.webhook.isNone && out.cacheWrite.isNone

/-- The data-model invariant of a persisted cache record: the stored
count equals the number of stored passing indices and every stored
index lies in `[0, totalCount)`. -/
def cacheInvariantB (v : JVal) (total : Int) : Bool :=
  match v with
  | .jobj fs =>
    match fs.lookup "count", fs.lookup "passing_indices" with
    | some (.jnum c), some (.jarr idx) =>
      c == (idx.length : Int) &&
        idx.all (fun j => match j with
          | .jnum i => decide (0 ≤ i) && decide (i < total)
          | _ => false)
    | _, _ => false
  | _ => false

/-- The count of manifest entries that are dicts whose `passes` field
is the boolean `true` (the counting rule the specification asserts). -/
def strictPassingCount (xs : List JVal) : Int :=
  (xs.countP (fun t => t.isObj &&
    match jGet t "passes" (.jbool false) with
    | .jbool b => b
    | _ => false) : Int)

/-- Manifest shapes other than a bare array or an object carrying a
`"features"` key, including a missing or unparsable file.  An object
that does carry a `"features"` key is never of this shape, whatever
value that key holds: such manifests are governed by the `"features"`
clause of the counting theorem, which reports the Python length of
that value (e.g. `3` for the string `"abc"`), not `(0, 0)`. -/
def otherShape : File → Prop
  | .absent => True
  | .malformed => True
  | .json (.jarr _) => False
  | .json (.jobj fs) => (fs.lookup "features").isNone = true
  | .json _ => True

/-- The `"features"` value of a parsed manifest object, when present. -/
def featuresOf : JVal → Option JVal
  | .jobj fs => fs.lookup "features"
  | _ => none

/-- An environment with no sink configured. -/
def env0 : Env := { webhookUrl := none, telegramBotToken := none, telegramChatId := none }

/-- An environment with only the chat sink configured. -/
def envT : Env := { webhookUrl := none, telegramBotToken := some "t", telegramChatId := some "c" }

/-- An environment with only the generic webhook sink configured. -/
def envW : Env := { webhookUrl := some "u", telegramBotToken := none, telegramChatId := none }

/-- A one-record manifest whose single feature passes. -/
def fW : File := .json (.jarr [.jobj [("passes", .jbool true)]])

/-- The passing-index list the feature scan computes does not depend
on the previous passing-index set (membership only filters the
completed-description list). -/
theorem loopFeatures_fst_indep (xs : List JVal) (s s2 : List JVal) (i : Int) :
    (loopFeatures s xs i).1 = (loopFeatures s2 xs i).1 := by
  induction xs generalizing i with
  | nil => rfl
  | cons t rest ih =>
    cases t with
    | jobj fields =>
      simp only [loopFeatures]
      split
      · by_cases h1 : memNum i s = true <;> by_cases h2 : memNum i s2 = true <;>
          simp [h1, h2, ih]
      · exact ih (i + 1)
    | jnull => rfl
    | jbool b => rfl
    | jnum n => rfl
    | jstr str => rfl
    | jarr ys => rfl

/-- Both cache-writing branches compute the same passing-index list. -/
theorem scanFeatures_fst_indep (f : File) (s : List JVal) :
    (scanFeatures f s).1 = currentPassingIndices f := by
  cases f with
  | absent => rfl
  | malformed => rfl
  | json v =>
    cases v with
    | jarr xs => exact loopFeatures_fst_indep xs s [] 0
    | jnull => rfl
    | jbool b => rfl
    | jnum n => rfl
    | jstr str => rfl
    | jobj fs => rfl

/-- Integer lists serialize to hashable JSON values. -/
theorem all_hashable_map_jnum (idx : List Int) :
    (idx.map JVal.jnum).all hashableJ = true := by
  induction idx with
  | nil => rfl
  | cons a l ih => simp [hashableJ, ih]

/-- Reading back a cache record the code itself wrote recovers the
stored count and index list. -/
theorem readCache_mkCacheObj (p : Int) (idx : List Int) :
    readCache (.json (mkCacheObj p idx)) = (.jnum p, idx.map .jnum) := by
  simp [readCache, mkCacheObj, jGet, setOfJ, all_hashable_map_jnum, List.lookup]

/-- The truthy-passing count is non-negative. -/
theorem truthyPassingCount_nonneg (l : List JVal) : 0 ≤ truthyPassingCount l := by
  exact Int.natCast_nonneg _

/-- A sequence with no dict elements contributes no passing records. -/
theorem truthyPassingCount_nonObj (l : List JVal) (hl : ∀ x ∈ l, x.isObj = false) :
    truthyPassingCount l = 0 := by
  unfold truthyPassingCount
  have hz : l.countP (fun t => t.isObj && pyTruthy (jGet t "passes" (.jbool false))) = 0 := by
    rw [List.countP_eq_zero]
    intro a ha
    simp [hl a ha]
  simp [hz]

/-- The passing count never exceeds the Python length of the sized
value it was counted over. -/
theorem truthyPassingCount_le (w : JVal) (n : Int) (h : pyLen w = .ok n) :
    truthyPassingCount (pyIterElems w) ≤ n := by
  cases w with
  | jarr xs =>
    simp only [pyLen, Except.ok.injEq] at h
    subst h
    unfold truthyPassingCount pyIterElems
    exact_mod_cast Nat.cast_le.mpr (List.countP_le_length _)
  | jstr s =>
    simp only [pyLen, Except.ok.injEq] at h
    subst h
    rw [truthyPassingCount_nonObj]
    · exact Int.natCast_nonneg _
    · intro x hx
      simp only [pyIterElems, List.mem_map] at hx
      obtain ⟨ch, _, rfl⟩ := hx
      rfl
  | jobj fs =>
    simp only [pyLen, Except.ok.injEq] at h
    subst h
    rw [truthyPassingCount_nonObj]
    · exact Int.natCast_nonneg _
    · intro x hx
      simp only [pyIterElems, List.mem_map] at hx
      obtain ⟨q, _, rfl⟩ := hx
      rfl
  | jnull => cases h
  | jbool b => cases h
  | jnum m => cases h

/-- Selecting the five most recent entries commutes with wrapping
strings as JSON values. -/
theorem recentOf_map_jstr (l : List String) :
    recentOf (l.map JVal.jstr)
      = (if l.length > 5 then l.drop (l.length - 5) else l).map JVal.jstr := by
  simp only [recentOf, List.length_map]
  split
  · rw [List.map_drop]
  · rfl

/-- Truncating a list of genuine string entries never raises and
yields the truncation of each entry. -/
theorem mapM_truncEntry_jstr (l : List String) :
    (l.map JVal.jstr).mapM truncEntry
      = .ok (l.map (fun s => if s.length > 60 then s.take 60 ++ "..." else s)) := by
  induction l with
  | nil => rfl
  | cons a l ih =>
    simp only [List.map_cons, List.mapM_cons, truncEntry, ih]
    rfl

/-- A milestone-check failure does not depend on the wall-clock
reading (the clock only enters the message content). -/
theorem check_error_now (env : Env) (p q t : Int) (name : String)
    (completed : List JVal) (now1 now2 : String) (e : PyErr)
    (h : check_telegram_milestone env p q t name completed now1 = .error e) :
    check_telegram_milestone env p q t name completed now2 = .error e := by
  unfold check_telegram_milestone at h ⊢
  by_cases hcfg : (truthyOpt env.telegramBotToken && truthyOpt env.telegramChatId) = true
  · rw [if_pos hcfg] at h ⊢
    by_cases hmil : pyFloorDiv q TELEGRAM_MILESTONE_INTERVAL * TELEGRAM_MILESTONE_INTERVAL
        < pyFloorDiv p TELEGRAM_MILESTONE_INTERVAL * TELEGRAM_MILESTONE_INTERVAL
    · rw [if_pos hmil] at h ⊢
      cases hm : (recentOf completed).mapM truncEntry with
      | error e2 => simp only [hm] at h ⊢; exact h
      | ok lines => simp only [hm] at h; cases h
    · rw [if_neg hmil] at h; cases h
  · rw [if_neg hcfg] at h; cases h

/-- A webhook-call failure does not depend on the wall-clock reading. -/
theorem send_error_now (env : Env) (p t : Int) (name : String) (f c : File)
    (now1 now2 : String) (e : PyErr)
    (h : send_progress_webhook env p t name f c now1 = .error e) :
    send_progress_webhook env p t name f c now2 = .error e := by
  unfold send_progress_webhook at h ⊢
  cases hgt : pyGtJ p (readCache c).1 with
  | error e2 => simp only [hgt] at h ⊢; exact h
  | ok b =>
    simp only [hgt] at h ⊢
    cases b with
    | true =>
      cases hck : check_telegram_milestone env p (pyToInt (readCache c).1) t name
          (scanFeatures f (readCache c).2).2 now1 with
      | error e2 =>
        simp only [hck] at h
        simp only [check_error_now env p (pyToInt (readCache c).1) t name
          (scanFeatures f (readCache c).2).2 now1 now2 e2 hck]
        exact h
      | ok tmsg => simp only [hck] at h; cases h
    | false =>
      cases c with
      | absent => cases h
      | malformed => cases h
      | json v => cases h

/-- A call whose passing count did not increase and whose cache file
exists produces no effect at all. -/
theorem send_noop (env : Env) (p t : Int) (name : String) (f c : File) (now : String)
    (hgt : pyGtJ p (readCache c).1 = .ok false) (hc : c ≠ File.absent) :
    send_progress_webhook env p t name f c now
      = .ok { telegram := none, webhook := none, cacheWrite := none } := by
  cases c with
  | absent => exact absurd rfl hc
  | malformed =>
    unfold send_progress_webhook
    simp only [hgt]
  | json v =>
    unfold send_progress_webhook
    simp only [hgt]

/-- The exact outcome of the increase branch once the milestone check
completed. -/
theorem send_inc (env : Env) (p t : Int) (name : String) (f c : File) (now : String)
    (tmsg : Option MilestoneMessage)
    (hgt : pyGtJ p (readCache c).1 = .ok true)
    (hck : check_telegram_milestone env p (pyToInt (readCache c).1) t name
      (scanFeatures f (readCache c).2).2 now = .ok tmsg) :
    send_progress_webhook env p t name f c now
      = .ok { telegram := tmsg,
              webhook :=
                if truthyOpt env.webhookUrl then
                  some [{ event := "test_progress", passing := p, total := t,
                          percentage := pctOf p t,
                          previous_passing := (readCache c).1,
                          tests_completed_this_session := p - pyToInt (readCache c).1,
                          completed_tests := (scanFeatures f (readCache c).2).2,
                          project := name, timestamp := now ++ "Z" }]
                else none,
              cacheWrite := some (mkCacheObj p (scanFeatures f (readCache c).2).1) } := by
  unfold send_progress_webhook
  simp only [hgt, hck]

/-- A manifest-count failure aborts the cycle before any effect. -/
theorem runCycle_count_error (env : Env) (name : String) (f c : File) (now : String)
    (e : PyErr) (hcount : count_passing_tests f = .error e) :
    runCycle env name f c now = (.error e, c) := by
  unfold runCycle print_progress_summary
  simp only [hcount]

/-- A cycle over an empty or unrecognized manifest prints the
placeholder and touches nothing. -/
theorem runCycle_placeholder_of_le (env : Env) (name : String) (f c : File) (now : String)
    (p t : Int) (hcount : count_passing_tests f = .ok (p, t)) (ht : ¬ 0 < t) :
    runCycle env name f c now = (.ok .placeholder, c) := by
  unfold runCycle print_progress_summary
  simp only [hcount]
  rw [if_neg ht]

/-- A webhook-call failure surfaces from the cycle with the cache
untouched. -/
theorem runCycle_send_error (env : Env) (name : String) (f c : File) (now : String)
    (p t : Int) (e : PyErr) (hcount : count_passing_tests f = .ok (p, t)) (ht : 0 < t)
    (hsend : send_progress_webhook env p t name f c now = .error e) :
    runCycle env name f c now = (.error e, c) := by
  unfold runCycle print_progress_summary
  simp only [hcount]
  rw [if_pos ht]
  simp only [hsend]

/-- A completed cycle reports the webhook outcome and applies its
cache write. -/
theorem runCycle_send_ok (env : Env) (name : String) (f c : File) (now : String)
    (p t : Int) (out : WebhookOutcome)
    (hcount : count_passing_tests f = .ok (p, t)) (ht : 0 < t)
    (hsend : send_progress_webhook env p t name f c now = .ok out) :
    runCycle env name f c now = (.ok (.progress p t out), applyCacheWrite out c) := by
  unfold runCycle print_progress_summary
  simp only [hcount]
  rw [if_pos ht]
  simp only [hsend]

/-- A recorded cache write replaces the cache file content. -/
theorem applyCacheWrite_some (tmsg : Option MilestoneMessage)
    (post : Option (List WebhookPayload)) (w : JVal) (c : File) :
    applyCacheWrite { telegram := tmsg, webhook := post, cacheWrite := some w } c
      = .json w := rfl

/-- An outcome without a cache write leaves the cache file as it was. -/
theorem applyCacheWrite_none (tmsg : Option MilestoneMessage)
    (post : Option (List WebhookPayload)) (c : File) :
    applyCacheWrite { telegram := tmsg, webhook := post, cacheWrite := none } c = c := rfl

/-- C1: the claim that every cache record persisted by
`send_progress_webhook` satisfies the data-model invariant (stored
count equals the number of stored passing indices, all indices in
`[0, totalCount)`) for every manifest shape the Counter accepts fails
on the code: for the wrapped manifest `\x7b"features": [\x7b"passes":
true\x7d]\x7d` the Counter reports one passing test of one, but the
webhook path enumerates the object keys instead of the feature list
(progress.py:125 never unwraps `"features"`), swallows the resulting
`AttributeError`, and writes `count = 1` with an empty index list —
violating the invariant the specification states.  This theorem
evaluates the embedded code at that failing input. -/
theorem c1_code_bug :
    runCycle env0 "proj"
        (File.json (.jobj [("features", .jarr [.jobj [("passes", .jbool true)]])]))
        File.absent "T"
      = (.ok (.progress 1 1 { telegram := none, webhook := none,
                              cacheWrite := some (.jobj [("count", .jnum 1),
                                                         ("passing_indices", .jarr [])]) }),
         .json (.jobj [("count", .jnum 1), ("passing_indices", .jarr [])]))
    ∧ cacheInvariantB (.jobj [("count", .jnum 1), ("passing_indices", .jarr [])]) 1 = false :=
  ⟨rfl, rfl⟩

/-- C2 counterexample: a record whose `passes` field is the truthy
non-boolean `1` IS counted by `count_passing_tests` (the source tests
truthiness, not strict equality with `true`), contradicting the
claim's prediction of zero for this manifest. -/
theorem c2_counterexample :
    count_passing_tests (File.json (.jarr [.jobj [("passes", .jnum 1)]])) = .ok (1, 1)
    ∧ strictPassingCount [.jobj [("passes", .jnum 1)]] = 0
    ∧ (1 : Int) ≠ 0 :=
  ⟨rfl, rfl, by decide⟩

/-- C2 (amended): exactly as the claim states it except for the one
change its counterexample forces — passing counts the entries that are
structured records (dicts) whose `passes` field is TRUTHY, so a record
with a truthy non-boolean `passes` value such as `1` or `"yes"` IS
counted.  The shape clauses are the claim's own: a bare JSON array
yields `total` = its length; an object with a `"features"` key yields
`total` = the Python length of that value (the length of the sequence,
for the sequence-shaped manifests the data model describes — so
`\x7b"features": "abc"\x7d` yields `(0, 3)`, not `(0, 0)`), with
`passing` counted over its iterated elements; any other parsed shape,
and a missing or unparsable manifest, yields `(0, 0)`; consequently
`0 ≤ passing ≤ total`. -/
theorem c2_theorem (f : File) (p t : Int)
    (h : count_passing_tests f = .ok (p, t)) :
    0 ≤ p ∧ p ≤ t
    ∧ (∀ xs, f = .json (.jarr xs) → p = truthyPassingCount xs ∧ t = xs.length)
    ∧ (∀ v w, f = .json v → featuresOf v = some w →
        pyLen w = .ok t ∧ p = truthyPassingCount (pyIterElems w))
    ∧ (otherShape f → p = 0 ∧ t = 0) := by
  cases f with
  | absent =>
    simp only [count_passing_tests, Except.ok.injEq, Prod.mk.injEq] at h
    obtain ⟨hp, ht⟩ := h
    subst hp; subst ht
    refine ⟨le_refl 0, le_refl 0, ?_, ?_, fun _ => ⟨rfl, rfl⟩⟩
    · intro xs hx; cases hx
    · intro v xs hv; cases hv
  | malformed =>
    simp only [count_passing_tests, Except.ok.injEq, Prod.mk.injEq] at h
    obtain ⟨hp, ht⟩ := h
    subst hp; subst ht
    refine ⟨le_refl 0, le_refl 0, ?_, ?_, fun _ => ⟨rfl, rfl⟩⟩
    · intro xs hx; cases hx
    · intro v xs hv; cases hv
  | json v =>
    have hok : pyLen (manifestTests v) = .ok t
        ∧ p = truthyPassingCount (pyIterElems (manifestTests v)) := by
      simp only [count_passing_tests] at h
      cases hl : pyLen (manifestTests v) with
      | error e => rw [hl] at h; cases h
      | ok n =>
        rw [hl] at h
        simp only [Except.ok.injEq, Prod.mk.injEq] at h
        obtain ⟨hp, ht⟩ := h
        exact ⟨by rw [ht], hp.symm⟩
    obtain ⟨hlen, hcount⟩ := hok
    have hnn : 0 ≤ p := by rw [hcount]; exact truthyPassingCount_nonneg _
    have hle : p ≤ t := by rw [hcount]; exact truthyPassingCount_le _ _ hlen
    refine ⟨hnn, hle, ?_, ?_, ?_⟩
    · intro xs hx
      cases hx
      constructor
      · rw [hcount]; rfl
      · simp only [manifestTests, pyLen, Except.ok.injEq] at hlen
        omega
    · intro v2 w hv2 hfeat
      cases hv2
      cases v with
      | jobj fs =>
        simp only [featuresOf] at hfeat
        have hm : manifestTests (.jobj fs) = w := by
          simp [manifestTests, hfeat]
        rw [hm] at hlen hcount
        exact ⟨hlen, hcount⟩
      | jnull => cases hfeat
      | jbool b => cases hfeat
      | jnum n => cases hfeat
      | jstr s => cases hfeat
      | jarr ys => cases hfeat
    · intro hother
      cases v with
      | jarr ys => cases hother
      | jobj fs =>
        simp only [otherShape, Option.isNone_iff_eq_none] at hother
        have hm : manifestTests (.jobj fs) = .jarr [] := by
          simp [manifestTests, hother]
        rw [hm] at hlen hcount
        simp only [pyLen, Except.ok.injEq, List.length_nil, Nat.cast_zero] at hlen
        constructor
        · rw [hcount]; rfl
        · omega
      | jnull =>
        have hm : manifestTests JVal.jnull = .jarr [] := rfl
        rw [hm] at hlen hcount
        simp only [pyLen, Except.ok.injEq, List.length_nil, Nat.cast_zero] at hlen
        exact ⟨by rw [hcount]; rfl, by omega⟩
      | jbool b =>
        have hm : manifestTests (JVal.jbool b) = .jarr [] := rfl
        rw [hm] at hlen hcount
        simp only [pyLen, Except.ok.injEq, List.length_nil, Nat.cast_zero] at hlen
        exact ⟨by rw [hcount]; rfl, by omega⟩
      | jnum n =>
        have hm : manifestTests (JVal.jnum n) = .jarr [] := rfl
        rw [hm] at hlen hcount
        simp only [pyLen, Except.ok.injEq, List.length_nil, Nat.cast_zero] at hlen
        exact ⟨by rw [hcount]; rfl, by omega⟩
      | jstr s =>
        have hm : manifestTests (JVal.jstr s) = .jarr [] := rfl
        rw [hm] at hlen hcount
        simp only [pyLen, Except.ok.injEq, List.length_nil, Nat.cast_zero] at hlen
        exact ⟨by rw [hcount]; rfl, by omega⟩

/-- C2 witness: the amended claim instantiated on the one-record
truthy-passes manifest, and its `"features"` clause instantiated on
the string-valued manifest `\x7b"features": "abc"\x7d`, which the code
counts as `(0, 3)`. -/
theorem c2_witness :
    (0 ≤ (1 : Int) ∧ (1 : Int) ≤ 1
      ∧ ((1 : Int) = truthyPassingCount [.jobj [("passes", .jnum 1)]]
          ∧ (1 : Int) = (([JVal.jobj [("passes", .jnum 1)]] : List JVal).length : Int)))
    ∧ (pyLen (.jstr "abc") = .ok 3
        ∧ (0 : Int) = truthyPassingCount (pyIterElems (.jstr "abc"))) :=
  ⟨⟨(c2_theorem (.json (.jarr [.jobj [("passes", .jnum 1)]])) 1 1 rfl).1,
    (c2_theorem (.json (.jarr [.jobj [("passes", .jnum 1)]])) 1 1 rfl).2.1,
    (c2_theorem (.json (.jarr [.jobj [("passes", .jnum 1)]])) 1 1 rfl).2.2.1
      [.jobj [("passes", .jnum 1)]] rfl⟩,
   (c2_theorem (.json (.jobj [("features", .jstr "abc")])) 0 3 rfl).2.2.2.1
     (.jobj [("features", .jstr "abc")]) (.jstr "abc") rfl rfl⟩

/-- C3: the no-exception claim fails on the code at two points this
theorem evaluates: `count_passing_tests` raises `TypeError` on the
parseable manifest `\x7b"features": 42\x7d` (the `except` clause at
progress.py:222 catches only `JSONDecodeError` and `IOError`, not the
`TypeError` from `len`), and `send_progress_webhook` raises
`TypeError` at the uncovered comparison `passing > previous`
(progress.py:115) when a parseable cache stores a non-numeric
`"count"`. -/
theorem c3_code_bug :
    count_passing_tests (File.json (.jobj [("features", .jnum 42)])) = .error .typeError
    ∧ send_progress_webhook env0 1 1 "proj" File.absent
        (File.json (.jobj [("count", .jstr "x")])) "T" = .error .typeError :=
  ⟨rfl, rfl⟩

/-- C4: with the chat sink configured, `check_telegram_milestone`
attempts a chat notification (returns a composed message) exactly when
`floor(current / 10) * 10 > floor(previous / 10) * 10`, for all
non-negative counts; with the sink unconfigured it produces and sends
nothing.  The concrete boundary cases 9 to 10, 10 to 19 and 19 to 20
are instantiated in the witness. -/
theorem c4_theorem (env : Env) (current previous total : Int) (name : String)
    (strs : List String) (now : String)
    (hcur : 0 ≤ current) (hprev : 0 ≤ previous) :
    ((truthyOpt env.telegramBotToken && truthyOpt env.telegramChatId) = true →
      ((∃ msg, check_telegram_milestone env current previous total name
          (strs.map JVal.jstr) now = .ok (some msg))
        ↔ pyFloorDiv previous 10 * 10 < pyFloorDiv current 10 * 10))
    ∧ ((truthyOpt env.telegramBotToken && truthyOpt env.telegramChatId) = false →
      check_telegram_milestone env current previous total name
        (strs.map JVal.jstr) now = .ok none) := by
  constructor
  · intro hcfg
    unfold check_telegram_milestone
    rw [hcfg]
    simp only [TELEGRAM_MILESTONE_INTERVAL, if_true]
    split
    · rw [recentOf_map_jstr, mapM_truncEntry_jstr]
      constructor
      · intro _; assumption
      · intro _; exact ⟨_, rfl⟩
    · constructor
      · intro ⟨msg, hmsg⟩; cases hmsg
      · intro hlt; omega
  · intro hcfg
    unfold check_telegram_milestone
    rw [hcfg]
    simp

/-- C4 witness: previous 9, current 10 triggers; previous 10,
current 19 does not; previous 19, current 20 triggers; the
unconfigured sink produces nothing. -/
theorem c4_witness :
    (∃ msg, check_telegram_milestone envT 10 9 30 "proj" [] "T" = .ok (some msg))
    ∧ ¬ (∃ msg, check_telegram_milestone envT 19 10 30 "proj" [] "T" = .ok (some msg))
    ∧ (∃ msg, check_telegram_milestone envT 20 19 30 "proj" [] "T" = .ok (some msg))
    ∧ check_telegram_milestone env0 5 0 30 "proj" [] "T" = .ok none :=
  ⟨((c4_theorem envT 10 9 30 "proj" [] "T" (by decide) (by decide)).1 rfl).mpr (by decide),
   fun h => absurd (((c4_theorem envT 19 10 30 "proj" [] "T" (by decide) (by decide)).1 rfl).mp h)
     (by decide),
   ((c4_theorem envT 20 19 30 "proj" [] "T" (by decide) (by decide)).1 rfl).mpr (by decide),
   (c4_theorem env0 5 0 30 "proj" [] "T" (by decide) (by decide)).2 rfl⟩

/-- C5: a completed `send_progress_webhook` call with the generic
webhook sink configured posts exactly when the passing count strictly
exceeds the cached previous count, and never otherwise; the posted
body is the single-element list wrapping the payload with the event
tag, passing count, total count, percentage, previous passing count,
session delta, newly-completed descriptions, project name, and the
UTC timestamp with the `"Z"` suffix. -/
theorem c5_theorem (env : Env) (passing total : Int) (name : String)
    (f c : File) (now : String) (out : WebhookOutcome)
    (h : send_progress_webhook env passing total name f c now = .ok out) :
    (truthyOpt env.webhookUrl = true →
      (out.webhook
          = some [{ event := "test_progress", passing := passing, total := total,
                    percentage := pctOf passing total,
                    previous_passing := (readCache c).1,
                    tests_completed_this_session := passing - pyToInt (readCache c).1,
                    completed_tests := (scanFeatures f (readCache c).2).2,
                    project := name, timestamp := now ++ "Z" }]
        ↔ pyGtJ passing (readCache c).1 = .ok true))
    ∧ (truthyOpt env.webhookUrl = false → out.webhook = none)
    ∧ (pyGtJ passing (readCache c).1 = .ok false → out.webhook = none) := by
  unfold send_progress_webhook at h
  cases hgt : pyGtJ passing (readCache c).1 with
  | error e => rw [hgt] at h; cases h
  | ok b =>
    rw [hgt] at h
    cases b with
    | true =>
      cases hck : check_telegram_milestone env passing (pyToInt (readCache c).1) total name
          (scanFeatures f (readCache c).2).2 now with
      | error e => rw [hck] at h; cases h
      | ok tmsg =>
        rw [hck] at h
        simp only [Except.ok.injEq] at h
        rw [← h]
        refine ⟨?_, ?_, ?_⟩
        · intro hurl
          simp only [hurl, if_true]
        · intro hurl
          simp only [hurl, Bool.false_eq_true, if_false]
        · intro hfalse
          exact absurd hfalse (by simp)
    | false =>
      have hout : out = { telegram := none, webhook := none, cacheWrite := none }
          ∨ out = { telegram := none, webhook := none,
                    cacheWrite := some (mkCacheObj passing (currentPassingIndices f)) } := by
        cases c with
        | absent =>
          simp only [Except.ok.injEq] at h
          exact Or.inr h.symm
        | malformed =>
          simp only [Except.ok.injEq] at h
          exact Or.inl h.symm
        | json v =>
          simp only [Except.ok.injEq] at h
          exact Or.inl h.symm
      have hwebhook : out.webhook = none := by
        rcases hout with rfl | rfl <;> rfl
      refine ⟨?_, fun _ => hwebhook, fun _ => hwebhook⟩
      · intro hurl
        rw [hwebhook]
        constructor
        · intro hsome; cases hsome
        · intro htrue
          exact absurd htrue (by simp)

/-- C5 witness: the first-run increase on a one-record manifest with
the webhook sink configured posts the expected single-element body. -/
theorem c5_witness :
    WebhookOutcome.webhook
        { telegram := none,
          webhook := some [{ event := "test_progress", passing := 1, total := 2,
                             percentage := pctOf 1 2, previous_passing := .jnum 0,
                             tests_completed_this_session := 1,
                             completed_tests := [.jstr "Test #1"], project := "proj",
                             timestamp := "T" ++ "Z" }],
          cacheWrite := some (mkCacheObj 1 [0]) }
      = some [{ event := "test_progress", passing := 1, total := 2,
                percentage := pctOf 1 2, previous_passing := (readCache File.absent).1,
                tests_completed_this_session := 1 - pyToInt (readCache File.absent).1,
                completed_tests := (scanFeatures fW (readCache File.absent).2).2,
                project := "proj", timestamp := "T" ++ "Z" }] :=
  ((c5_theorem envW 1 2 "proj" fW File.absent "T"
      { telegram := none,
        webhook := some [{ event := "test_progress", passing := 1, total := 2,
                           percentage := pctOf 1 2, previous_passing := .jnum 0,
                           tests_completed_this_session := 1,
                           completed_tests := [.jstr "Test #1"], project := "proj",
                           timestamp := "T" ++ "Z" }],
        cacheWrite := some (mkCacheObj 1 [0]) } rfl).1 rfl).mpr rfl

/-- C6: a completed `send_progress_webhook` call writes the cache file
exactly when the passing count strictly increased over the cached
value or the cache file does not yet exist; the written record is
always `\x7bcount: passing, passing_indices: current passing
indices\x7d`; when no write happens the cache file content is left
entirely unchanged. -/
theorem c6_theorem (env : Env) (passing total : Int) (name : String)
    (f c : File) (now : String) (out : WebhookOutcome)
    (h : send_progress_webhook env passing total name f c now = .ok out) :
    ((∃ v, out.cacheWrite = some v)
      ↔ (pyGtJ passing (readCache c).1 = .ok true ∨ c = File.absent))
    ∧ (∀ v, out.cacheWrite = some v →
        v = mkCacheObj passing (currentPassingIndices f))
    ∧ (out.cacheWrite = none → applyCacheWrite out c = c) := by
  unfold send_progress_webhook at h
  cases hgt : pyGtJ passing (readCache c).1 with
  | error e => rw [hgt] at h; cases h
  | ok b =>
    rw [hgt] at h
    cases b with
    | true =>
      cases hck : check_telegram_milestone env passing (pyToInt (readCache c).1) total name
          (scanFeatures f (readCache c).2).2 now with
      | error e => rw [hck] at h; cases h
      | ok tmsg =>
        rw [hck] at h
        simp only [Except.ok.injEq] at h
        rw [← h]
        refine ⟨?_, ?_, ?_⟩
        · constructor
          · intro _; exact Or.inl rfl
          · intro _; exact ⟨_, rfl⟩
        · intro v hv
          simp only [Option.some.injEq] at hv
          rw [← hv, scanFeatures_fst_indep]
        · intro hnone; cases hnone
    | false =>
      cases c with
      | absent =>
        simp only [Except.ok.injEq] at h
        rw [← h]
        refine ⟨?_, ?_, ?_⟩
        · exact ⟨fun _ => Or.inr rfl, fun _ => ⟨_, rfl⟩⟩
        · intro v hv
          simp only [Option.some.injEq] at hv
          rw [← hv]
        · intro hnone; cases hnone
      | malformed =>
        simp only [Except.ok.injEq] at h
        rw [← h]
        refine ⟨?_, ?_, ?_⟩
        · constructor
          · intro ⟨v, hv⟩; cases hv
          · intro hor
            rcases hor with htrue | habs
            · exact absurd htrue (by simp)
            · cases habs
        · intro v hv; cases hv
        · intro _; rfl
      | json w =>
        simp only [Except.ok.injEq] at h
        rw [← h]
        refine ⟨?_, ?_, ?_⟩
        · constructor
          · intro ⟨v, hv⟩; cases hv
          · intro hor
            rcases hor with htrue | habs
            · exact absurd htrue (by simp)
            · cases habs
        · intro v hv; cases hv
        · intro _; rfl

/-- C6 witness: the first-run write on a missing cache stores the
passing count together with the computed current passing indices. -/
theorem c6_witness :
    ((∃ v, WebhookOutcome.cacheWrite
        { telegram := none, webhook := none, cacheWrite := some (mkCacheObj 1 [0]) }
          = some v)
      ↔ (pyGtJ 1 (readCache File.absent).1 = .ok true ∨ File.absent = File.absent))
    ∧ mkCacheObj 1 [0] = mkCacheObj 1 (currentPassingIndices fW) :=
  ⟨(c6_theorem env0 1 2 "proj" fW File.absent "T"
      { telegram := none, webhook := none, cacheWrite := some (mkCacheObj 1 [0]) } rfl).1,
   (c6_theorem env0 1 2 "proj" fW File.absent "T"
      { telegram := none, webhook := none, cacheWrite := some (mkCacheObj 1 [0]) } rfl).2.1
     (mkCacheObj 1 [0]) rfl⟩

/-- C7: running the full progress cycle twice with an unchanged
manifest and an already-existing cache file is idempotent: the second
invocation attempts no chat notification, posts nothing to the
webhook, performs no cache write, and leaves the cache file
unchanged. -/
theorem c7_theorem (env : Env) (name : String) (f c : File) (now1 now2 : String)
    (hc : c ≠ File.absent) :
    noEffectsB (runCycle env name f (runCycle env name f c now1).2 now2).1 = true
    ∧ (runCycle env name f (runCycle env name f c now1).2 now2).2
        = (runCycle env name f c now1).2 := by
  cases hcount : count_passing_tests f with
  | error e =>
    rw [runCycle_count_error env name f c now1 e hcount,
        runCycle_count_error env name f c now2 e hcount]
    exact ⟨rfl, rfl⟩
  | ok pt =>
    obtain ⟨p, t⟩ := pt
    by_cases ht : 0 < t
    · cases hgt : pyGtJ p (readCache c).1 with
      | error e =>
        have hsend1 : send_progress_webhook env p t name f c now1 = .error e := by
          unfold send_progress_webhook; simp only [hgt]
        have hsend2 : send_progress_webhook env p t name f c now2 = .error e := by
          unfold send_progress_webhook; simp only [hgt]
        rw [runCycle_send_error env name f c now1 p t e hcount ht hsend1,
            runCycle_send_error env name f c now2 p t e hcount ht hsend2]
        exact ⟨rfl, rfl⟩
      | ok b =>
        cases b with
        | false =>
          rw [runCycle_send_ok env name f c now1 p t _ hcount ht
                (send_noop env p t name f c now1 hgt hc),
              applyCacheWrite_none]
          rw [runCycle_send_ok env name f c now2 p t _ hcount ht
                (send_noop env p t name f c now2 hgt hc),
              applyCacheWrite_none]
          exact ⟨rfl, rfl⟩
        | true =>
          cases hck : check_telegram_milestone env p (pyToInt (readCache c).1) t name
              (scanFeatures f (readCache c).2).2 now1 with
          | error e =>
            have hsend1 : send_progress_webhook env p t name f c now1 = .error e := by
              unfold send_progress_webhook; simp only [hgt, hck]
            have hck2 := check_error_now env p (pyToInt (readCache c).1) t name
              (scanFeatures f (readCache c).2).2 now1 now2 e hck
            have hsend2 : send_progress_webhook env p t name f c now2 = .error e := by
              unfold send_progress_webhook; simp only [hgt, hck2]
            rw [runCycle_send_error env name f c now1 p t e hcount ht hsend1,
                runCycle_send_error env name f c now2 p t e hcount ht hsend2]
            exact ⟨rfl, rfl⟩
          | ok tmsg =>
            rw [runCycle_send_ok env name f c now1 p t _ hcount ht
                  (send_inc env p t name f c now1 tmsg hgt hck),
                applyCacheWrite_some]
            have hgt2 : pyGtJ p
                (readCache (.json (mkCacheObj p (scanFeatures f (readCache c).2).1))).1
                  = .ok false := by
              rw [readCache_mkCacheObj]
              simp [pyGtJ]
            rw [runCycle_send_ok env name f
                  (.json (mkCacheObj p (scanFeatures f (readCache c).2).1)) now2 p t _
                  hcount ht
                  (send_noop env p t name f
                    (.json (mkCacheObj p (scanFeatures f (readCache c).2).1)) now2 hgt2
                    (fun hh => File.noConfusion hh)),
                applyCacheWrite_none]
            exact ⟨rfl, rfl⟩
    · rw [runCycle_placeholder_of_le env name f c now1 p t hcount ht,
          runCycle_placeholder_of_le env name f c now2 p t hcount ht]
      exact ⟨rfl, rfl⟩

/-- C7 witness: two cycles over the one-record manifest starting from
an existing zero-count cache; the second run has no effect and keeps
the cache written by the first. -/
theorem c7_witness :
    noEffectsB (runCycle env0 "proj" fW
        (runCycle env0 "proj" fW
          (File.json (.jobj [("count", .jnum 0), ("passing_indices", .jarr [])]))
          "T1").2 "T2").1 = true
    ∧ (runCycle env0 "proj" fW
        (runCycle env0 "proj" fW
          (File.json (.jobj [("count", .jnum 0), ("passing_indices", .jarr [])]))
          "T1").2 "T2").2
        = (runCycle env0 "proj" fW
            (File.json (.jobj [("count", .jnum 0), ("passing_indices", .jarr [])]))
            "T1").2 :=
  c7_theorem env0 "proj" fW
    (File.json (.jobj [("count", .jnum 0), ("passing_indices", .jarr [])]))
    "T1" "T2" (fun hh => File.noConfusion hh)

/-- C8: in both the milestone message and the webhook payload the
percentage equals `round(passing / total * 100, 1)` whenever
`total > 0` and equals `0` when `total = 0`, with no division-by-zero
failure for any counts. -/
theorem c8_theorem (env : Env) (p prev total : Int) (name : String)
    (completed : List JVal) (f c : File) (now : String) :
    (∀ msg, check_telegram_milestone env p prev total name completed now = .ok (some msg) →
      msg.percentage = if 0 < total then pyRound1 ((p : ℚ) / (total : ℚ) * 100) else 0)
    ∧ (∀ out body pl, send_progress_webhook env p total name f c now = .ok out →
        out.webhook = some body → pl ∈ body →
        pl.percentage = if 0 < total then pyRound1 ((p : ℚ) / (total : ℚ) * 100) else 0) := by
  constructor
  · intro msg hmsg
    unfold check_telegram_milestone at hmsg
    split at hmsg
    · split at hmsg
      · cases hm : (recentOf completed).mapM truncEntry with
        | error e => rw [hm] at hmsg; cases hmsg
        | ok lines =>
          rw [hm] at hmsg
          simp only [Except.ok.injEq, Option.some.injEq] at hmsg
          rw [← hmsg]
          rfl
      · cases hmsg
    · cases hmsg
  · intro out body pl hout hweb hpl
    unfold send_progress_webhook at hout
    cases hgt : pyGtJ p (readCache c).1 with
    | error e => rw [hgt] at hout; cases hout
    | ok b =>
      rw [hgt] at hout
      cases b with
      | true =>
        cases hck : check_telegram_milestone env p (pyToInt (readCache c).1) total name
            (scanFeatures f (readCache c).2).2 now with
        | error e => rw [hck] at hout; cases hout
        | ok tmsg =>
          rw [hck] at hout
          simp only [Except.ok.injEq] at hout
          rw [← hout] at hweb
          by_cases hurl : truthyOpt env.webhookUrl = true
          · simp only [hurl, if_true, Option.some.injEq] at hweb
            rw [← hweb] at hpl
            simp only [List.mem_singleton] at hpl
            rw [hpl]
            rfl
          · simp only [eq_false_of_ne_true hurl, if_false] at hweb
            cases hweb
      | false =>
        cases c with
        | absent =>
          simp only [Except.ok.injEq] at hout
          rw [← hout] at hweb
          cases hweb
        | malformed =>
          simp only [Except.ok.injEq] at hout
          rw [← hout] at hweb
          cases hweb
        | json v =>
          simp only [Except.ok.injEq] at hout
          rw [← hout] at hweb
          cases hweb

/-- C8 witness: the percentage field of a concrete milestone message
and a concrete webhook payload both equal the guarded rounding
formula. -/
theorem c8_witness :
    MilestoneMessage.percentage
        { projectName := "proj", passing := 10, total := 20, percentage := pctOf 10 20,
          milestone := 10, recentLines := [], sentAt := "T" }
      = (if 0 < (20 : Int) then pyRound1 ((10 : ℚ) / ((20 : Int) : ℚ) * 100) else 0)
    ∧ WebhookPayload.percentage
        { event := "test_progress", passing := 1, total := 2, percentage := pctOf 1 2,
          previous_passing := .jnum 0, tests_completed_this_session := 1,
          completed_tests := [.jstr "Test #1"], project := "proj",
          timestamp := "T" ++ "Z" }
      = (if 0 < (2 : Int) then pyRound1 ((1 : ℚ) / ((2 : Int) : ℚ) * 100) else 0) :=
  ⟨(c8_theorem envT 10 9 20 "proj" [] File.absent File.absent "T").1 _ rfl,
   (c8_theorem envW 1 0 2 "proj" [] fW File.absent "T").2 _ _ _ rfl rfl
     (List.mem_singleton.mpr rfl)⟩

/-- C9: the milestone message lists at most the five
most-recently-completed entries in original order, each truncated to
its first sixty characters plus an ellipsis when longer than sixty
(so a sixty-one-character entry is cut, a sixty-character entry is
untouched), and each completed entry is prefixed with its category in
brackets exactly when the category is non-empty. -/
theorem c9_theorem (env : Env) (p prev total : Int) (name : String)
    (strs : List String) (now : String) (msg : MilestoneMessage)
    (h : check_telegram_milestone env p prev total name (strs.map JVal.jstr) now
      = .ok (some msg)) :
    msg.recentLines.length ≤ 5
    ∧ msg.recentLines
        = (if strs.length > 5 then strs.drop (strs.length - 5) else strs).map
            (fun s => if s.length > 60 then s.take 60 ++ "..." else s)
    ∧ (∀ s : String, s.length = 61 →
        (if s.length > 60 then s.take 60 ++ "..." else s) = s.take 60 ++ "...")
    ∧ (∀ s : String, s.length ≤ 60 →
        (if s.length > 60 then s.take 60 ++ "..." else s) = s)
    ∧ (∀ (i : Int) (t : JVal) (cat desc : String),
        jGet t "category" (.jstr "") = .jstr cat →
        jGet t "description" (.jstr ("Test #" ++ toString (i + 1))) = .jstr desc →
        mkEntry i t = if cat = "" then .jstr desc
          else .jstr ("[" ++ cat ++ "] " ++ desc)) := by
  have hlines : msg.recentLines
      = (if strs.length > 5 then strs.drop (strs.length - 5) else strs).map
          (fun s => if s.length > 60 then s.take 60 ++ "..." else s) := by
    unfold check_telegram_milestone at h
    split at h
    · split at h
      · rw [recentOf_map_jstr, mapM_truncEntry_jstr] at h
        simp only [Except.ok.injEq, Option.some.injEq] at h
        rw [← h]
      · cases h
    · cases h
  refine ⟨?_, hlines, ?_, ?_, ?_⟩
  · rw [hlines]
    rw [List.length_map]
    split
    · rw [List.length_drop]
      omega
    · omega
  · intro s hs
    rw [if_pos (by omega)]
  · intro s hs
    rw [if_neg (by omega)]
  · intro i t cat desc hcat hdesc
    unfold mkEntry
    rw [hcat, hdesc]
    simp only [pyTruthy, pyStr]
    by_cases hcEmpty : cat = ""
    · subst hcEmpty
      simp
    · simp [hcEmpty]

/-- C9 witness: a milestone message over one short completed entry
shows it unmodified as the single recent line. -/
theorem c9_witness :
    (MilestoneMessage.recentLines
        { projectName := "proj", passing := 10, total := 30, percentage := pctOf 10 30,
          milestone := 10, recentLines := ["hi"], sentAt := "T" }).length ≤ 5
    ∧ MilestoneMessage.recentLines
        { projectName := "proj", passing := 10, total := 30, percentage := pctOf 10 30,
          milestone := 10, recentLines := ["hi"], sentAt := "T" }
      = (if (["hi"] : List String).length > 5
          then (["hi"] : List String).drop ((["hi"] : List String).length - 5)
          else ["hi"]).map
          (fun s => if s.length > 60 then s.take 60 ++ "..." else s) :=
  ⟨(c9_theorem envT 10 0 30 "proj" ["hi"] "T"
      { projectName := "proj", passing := 10, total := 30, percentage := pctOf 10 30,
        milestone := 10, recentLines := ["hi"], sentAt := "T" } rfl).1,
   (c9_theorem envT 10 0 30 "proj" ["hi"] "T"
      { projectName := "proj", passing := 10, total := 30, percentage := pctOf 10 30,
        milestone := 10, recentLines := ["hi"], sentAt := "T" } rfl).2.1⟩

/-- C10: whenever `count_passing_tests` yields a zero total,
`print_progress_summary` prints only the placeholder line: no webhook
logic runs, no sink is contacted and the cache file is untouched, even
on a first run. -/
theorem c10_theorem (env : Env) (name : String) (f c : File) (now : String)
    (p : Int) (h : count_passing_tests f = .ok (p, 0)) :
    runCycle env name f c now = (.ok .placeholder, c) := by
  unfold runCycle print_progress_summary
  rw [h]
  simp

/-- C10 witness: a missing manifest on a first run prints the
placeholder and leaves the missing cache file missing. -/
theorem c10_witness :
    runCycle env0 "proj" File.absent File.absent "T" = (.ok .placeholder, File.absent) :=
  c10_theorem env0 "proj" .absent .absent "T" 0 rfl
